import Mathlib

/-
Verification of the Recruitment-CRM conversation engine.

This development shallowly embeds the conversation state machine and
context-assembly engine of the repository:

  * `telegram-bot/shared/knowledgebase.py`  (knowledge store, role matcher,
    context builder, template responses)
  * `telegram-bot/shared/ai_screening.py`   (shared conversation engine,
    state detectors, resume screening)
  * `telegram-bot/main.py`                  (telegram-local engine variant:
    restore, detectors, per-turn loop, local resume screening)

Conventions used throughout:

  * Python dicts keyed by user id are modelled per user: every embedded
    function operates on the slice of the module-level
    dictionaries (`conversations`, `conversation_states`, `restored_users`),
    since each call only ever touches the entry of the user it was given.
  * The LLM completion call and the database are external effects; they are
    passed in as values (`Except String String` for the completion outcome,
    an environment record for what the repository returns).
  * Python string falsiness (`if not text`) is modelled as an `= ""` test,
    `None` as `Option.none`, optional-string truthiness (`if d.get(k):`) by
    `optTruthy` below.
  * Dynamic typing is modelled by `PyVal` where a claim is about non-string
    inputs; exceptions are modelled with `Except`.
  * The `conversation_contexts` dictionary of `ai_screening.py` is kept
    in sync with `conversation_states` by `_sync_state_to_context` at every
    write, so it is recomputed on demand here (`build_context_from_state`)
    instead of being stored.
-/

-- =========================================================================
-- String helpers (Python `in`, `.lower()`, `.strip()`, `.split()`)
-- =========================================================================

/-- Does the list start with `p`?  (helper for substring search). -/
def startsWithL : List Char → List Char → Bool
  | [], _ => true
  | _ :: _, [] => false
  | a :: as, b :: bs => a == b && startsWithL as bs

/-- Does `pat` occur as a contiguous sublist of the second argument?
Models the Python `pat in s` test on strings. -/
def containsL (pat : List Char) : List Char → Bool
  | [] => startsWithL pat []
  | l@(_ :: rest) => startsWithL pat l || containsL pat rest

/-- Python `pat in s` (substring containment) on `String`. -/
def containsSub (s pat : String) : Bool :=
  containsL pat.data s.data

/-- Python truthiness of an optional string (`None` and `""` are falsy). -/
def optTruthy : Option String → Bool
  | none => false
  | some s => !(s == "")

/-- Python `str.lower()` (ASCII, as used throughout the source). -/
def pyLower (s : String) : String :=
  String.mk (s.data.map Char.toLower)

/-- Python `str.strip()`: drop leading and trailing whitespace. -/
def pyStrip (s : String) : String :=
  String.mk (((s.data.dropWhile Char.isWhitespace).reverse.dropWhile
    Char.isWhitespace).reverse)

/-- Accumulator loop for `pySplit`. -/
def pySplitAux : List Char → List Char → List String
  | [], acc => if acc = [] then [] else [String.mk acc.reverse]
  | c :: rest, acc =>
    if c.isWhitespace then
      if acc = [] then pySplitAux rest []
      else String.mk acc.reverse :: pySplitAux rest []
    else pySplitAux rest (c :: acc)

/-- Python `str.split()` with no argument: split on whitespace runs,
dropping empty pieces. -/
def pySplit (s : String) : List String :=
  pySplitAux s.data []

/-- Python `sep.join(parts)`. -/
def pyJoinWith (sep : String) : List String → String
  | [] => ""
  | [p] => p
  | p :: rest => p ++ sep ++ pyJoinWith sep rest

/-- Python slicing `s[:n]`. -/
def pyTake (s : String) (n : Nat) : String :=
  String.mk (s.data.take n)

-- =========================================================================
-- Knowledge store (knowledgebase.py: configuration + ROLE_KNOWLEDGE)
-- =========================================================================

/-- Embeds `RECRUITER_NAME` (environment default). -/
def RECRUITER_NAME : String := "Ai Wei"

/-- Embeds `COMPANY_NAME` (environment default). -/
def COMPANY_NAME : String := "CGP"

/-- Embeds `COMPANY_FULL_NAME`. -/
def COMPANY_FULL_NAME : String := "CGP Singapore"

/-- Embeds `EA_LICENCE`. -/
def EA_LICENCE : String := "19C9859"

/-- Embeds `APPLICATION_FORM_URL` (environment default). -/
def APPLICATION_FORM_URL : String := "Shorturl.at/kmvJ6"

/-- Embeds `COMPANY_INFO["description"]` (the only `COMPANY_INFO` field read by the
context builder). -/
def COMPANY_DESCRIPTION : String :=
  "CGP Singapore is a leading recruitment agency providing executive search, permanent placement, and staffing solutions across Singapore and Malaysia."

/-- Embeds `COMMUNICATION_STYLE["personality"]["tone"]`. -/
def STYLE_TONE : String :=
  "Casual and friendly, like texting a friend who\x27s helping with job hunting"

/-- Shift times of a role (`ROLE_KNOWLEDGE[...]["shifts"]`). -/
structure ShiftTimes where
  day : Option String := none
  overnight : Option String := none
deriving Repr, DecidableEq

/-- One `ROLE_KNOWLEDGE` entry.  Only the fields that are read by the
embedded functions are modelled (`key_skills`, `notes`, `typical_schedule`
and `responsibilities` are never read by any code under verification). -/
structure RoleInfo where
  title : Option String := none
  is_active : Bool := false
  keywords : List String := []
  experience_questions : List String := []
  salary : Option String := none
  location : Option String := none
  work_type : Option String := none
  shifts : Option ShiftTimes := none
  requirements : List String := []
  citizenship_required : Option String := none
  job_url : Option String := none
deriving Repr, DecidableEq

/-- Embeds `ROLE_KNOWLEDGE["general"]`: the always-active fallback entry. -/
def general_role : RoleInfo :=
  { title := some "General Position"
    is_active := true
    keywords := []
    experience_questions :=
      [ "what kind of work experience do u have?"
      , "what roles are u interested in?"
      , "what\x27s ur availability like?" ] }

/-- The static `ROLE_KNOWLEDGE` dictionary, in insertion (= iteration)
order. -/
def ROLE_KNOWLEDGE : List (String × RoleInfo) :=
  [ ("warehouse_packer",
     { title := some "Warehouse Operations/Packer"
       is_active := true
       keywords := ["warehouse", "packer", "packing", "logistics", "jurong", "shift", "operations"]
       salary := some "$2,200 - $2,700/month"
       location := some "6 Fishery Port Road, Singapore 619747 (Jurong Port)"
       work_type := some "Full-time, 6 days/week"
       shifts := some { day := some "10.00am to 7.00pm", overnight := some "9.00pm to 6.00am" }
       requirements :=
         [ "Singaporeans Only"
         , "Basic numerical conversion knowledge (e.g., 1kg = 1000g)" ]
       experience_questions :=
         [ "are u a singaporean?"
         , "do u have any warehouse or packing experience?"
         , "are u able to do shift work? we have day shift (10am-7pm) or overnight shift (9pm-6am)" ]
       citizenship_required := some "SC" })
  , ("accountant",
     { title := some "Accountant / Finance Professional"
       is_active := false
       keywords := ["accountant", "accounting", "finance", "audit", "cpa", "acca", "financial"]
       experience_questions :=
         [ "how many years of accounting experience do u have?"
         , "are u familiar with any accounting software like SAP or Oracle?"
         , "do u have any professional certifications like CPA or ACCA?" ] })
  , ("hr_professional",
     { title := some "HR Professional"
       is_active := false
       keywords := ["hr", "human resource", "recruitment", "talent", "payroll", "compensation"]
       experience_questions :=
         [ "what areas of HR have u worked in?"
         , "do u have experience with HRIS systems?"
         , "have u handled recruitment or employee relations before?" ] })
  , ("legal_professional",
     { title := some "Legal / Compliance Professional"
       is_active := false
       keywords := ["legal", "lawyer", "compliance", "paralegal", "contract", "regulatory"]
       experience_questions :=
         [ "what\x27s ur legal background or specialization?"
         , "do u have experience in corporate or regulatory compliance?"
         , "are u admitted to the Singapore Bar?" ] })
  , ("it_professional",
     { title := some "IT / Technology Professional"
       is_active := false
       keywords := ["it", "software", "developer", "tech", "data", "engineer", "programmer", "digital"]
       experience_questions :=
         [ "what programming languages or technologies do u work with?"
         , "what\x27s ur experience in software development or IT support?"
         , "have u worked on any notable projects?" ] })
  , ("sales_marketing",
     { title := some "Sales / Marketing Professional"
       is_active := false
       keywords := ["sales", "marketing", "business development", "digital marketing", "brand"]
       experience_questions :=
         [ "what\x27s ur sales or marketing background?"
         , "what industries have u worked in?"
         , "do u have experience with digital marketing tools?" ] })
  , ("supply_chain",
     { title := some "Supply Chain / Logistics Professional"
       is_active := false
       keywords := ["supply chain", "logistics", "procurement", "warehouse", "shipping", "inventory"]
       experience_questions :=
         [ "what\x27s ur experience in supply chain or logistics?"
         , "have u worked with any ERP or inventory systems?"
         , "do u have experience in procurement or vendor management?" ] })
  , ("healthcare",
     { title := some "Healthcare Professional"
       is_active := false
       keywords := ["healthcare", "medical", "nurse", "hospital", "clinical", "pharma"]
       experience_questions :=
         [ "what\x27s ur healthcare background?"
         , "do u have any medical certifications or licenses?"
         , "which healthcare settings have u worked in?" ] })
  , ("barista",
     { title := some "Barista"
       is_active := false
       keywords := ["barista", "coffee", "cafe", "latte"]
       experience_questions :=
         [ "do u have experience making coffee with latte art?"
         , "have u worked in a cafe before?"
         , "are u familiar with espresso machines?" ] })
  , ("phone_researcher",
     { title := some "Phone Researcher / Survey Caller"
       is_active := false
       keywords := ["researcher", "phone", "survey", "data collection", "government"]
       experience_questions :=
         [ "do u have experience with phone surveys or data collection?"
         , "have u done any telemarketing or customer calls before?"
         , "are u comfortable speaking on the phone for extended periods?" ] })
  , ("event_crew",
     { title := some "Event Crew / Carnival Staff"
       is_active := false
       keywords := ["event", "carnival", "christmas", "exhibition", "roadshow"]
       experience_questions :=
         [ "do u have experience with events or customer service?"
         , "have u worked at roadshows or exhibitions before?"
         , "are u comfortable being on ur feet for long hours?" ] })
  , ("admin_assistant",
     { title := some "Admin Assistant"
       is_active := false
       keywords := ["admin", "administrative", "office", "data entry", "clerical"]
       experience_questions :=
         [ "do u have experience with admin work?"
         , "are u familiar with Microsoft Office?"
         , "have u done data entry or filing before?" ] })
  , ("customer_service",
     { title := some "Customer Service Representative"
       is_active := false
       keywords := ["customer service", "retail", "service", "helpdesk", "support"]
       experience_questions :=
         [ "do u have experience in customer service?"
         , "have u worked in retail before?"
         , "how do u handle difficult customers?" ] })
  , ("promoter",
     { title := some "Promoter / Brand Ambassador"
       is_active := false
       keywords := ["promoter", "promotion", "sales", "brand ambassador", "sampling"]
       experience_questions :=
         [ "do u have experience with promotions or sales?"
         , "are u comfortable approaching strangers?"
         , "have u done any product sampling before?" ] })
  , ("fnb_service",
     { title := some "F&B Service Crew"
       is_active := false
       keywords := ["waiter", "waitress", "f&b", "restaurant", "service crew", "food"]
       experience_questions :=
         [ "do u have experience in f&b or restaurant service?"
         , "are u comfortable working in a fast-paced environment?"
         , "do u have food hygiene certification?" ] })
  , ("general", general_role) ]

/-- The process-wide mutable knowledge configuration: `_db_loaded`,
`_db_knowledge["role"]`, and `CONVERSATION_OBJECTIVES["closing_approach"]["phrase"]`
(the latter is overwritable from the database by `reload_from_database`). -/
structure Knowledge where
  db_loaded : Bool := false
  db_roles : List (String × RoleInfo) := []
  closing_phrase : String := "will contact u if shortlisted"
deriving Repr

/-- The static configuration (no database override loaded). -/
def staticKb : Knowledge := {}

/-- Embeds `get_all_roles()`: database roles (with the static `general` fallback
forced in) when loaded, else the static catalog. -/
def get_all_roles (kb : Knowledge) : List (String × RoleInfo) :=
  if kb.db_loaded then
    if (kb.db_roles.lookup "general").isSome then
      kb.db_roles.map (fun p => if p.1 = "general" then (p.1, general_role) else p)
    else kb.db_roles ++ [("general", general_role)]
  else ROLE_KNOWLEDGE

/-- Embeds `get_active_roles()`: active roles except `general`. -/
def get_active_roles (kb : Knowledge) : List (String × RoleInfo) :=
  (get_all_roles kb).filter (fun p => p.2.is_active && p.1 ≠ "general")

/-- Embeds `get_role_from_db(role_key)`: database entry first, else static. -/
def get_role_from_db (kb : Knowledge) (role_key : String) : Option RoleInfo :=
  (if kb.db_loaded then kb.db_roles.lookup role_key else none) <|>
    ROLE_KNOWLEDGE.lookup role_key

/-- Embeds `get_role_info(role_key)`: `get_role_from_db` result, else the static
entry, else the `general` fallback. -/
def get_role_info (kb : Knowledge) (role_key : String) : RoleInfo :=
  match get_role_from_db kb role_key with
  | some r => r
  | none => (ROLE_KNOWLEDGE.lookup role_key).getD general_role

/-- The role-iteration loop of `identify_role_from_text`. -/
def identifyScan (textLower : String) : List (String × RoleInfo) → Option String
  | [] => none
  | (k, r) :: rest =>
    if k = "general" then identifyScan textLower rest
    else if !r.is_active then identifyScan textLower rest
    else if r.keywords.any (fun kw => containsSub textLower (pyLower kw)) then some k
    else identifyScan textLower rest

/-- Embeds `identify_role_from_text(text)` for string input: first active
non-`general` role (catalog iteration order) with a lower-cased keyword
occurring in the lower-cased text; `None` if the text is empty. -/
def identify_role_from_text (kb : Knowledge) (text : String) : Option String :=
  if text = "" then none
  else identifyScan (pyLower text) (get_all_roles kb)

/-- Embeds `get_experience_question(role_key)`: the first role-specific experience
question, or the generic fallback. -/
def get_experience_question (kb : Knowledge) (role_key : String) : String :=
  match (get_role_info kb role_key).experience_questions with
  | q :: _ => q
  | [] => "what kind of work experience do u have?"

-- =========================================================================
-- Dynamically-typed call surface of the role matcher
-- =========================================================================

/-- A Python value as passed to `identify_role_from_text` at its dynamic
call surface: `None`, a string, or a non-string object (represented by an
integer). -/
inductive PyVal where
  | vnone
  | vstr (s : String)
  | vint (n : Int)
deriving Repr, DecidableEq

/-- Python truthiness of a `PyVal`. -/
def pyTruthy : PyVal → Bool
  | .vnone => false
  | .vstr s => !(s == "")
  | .vint n => !(n == 0)

/-- Embeds `identify_role_from_text` under the dynamic typing of Python: falsy input
returns `None` via the `if not text` guard; truthy non-string input reaches
`text.lower()` and raises `AttributeError`. -/
def identify_role_py (kb : Knowledge) (v : PyVal) : Except String (Option String) :=
  if !pyTruthy v then .ok none
  else
    match v with
    | .vstr s => .ok (identify_role_from_text kb s)
    | _ => .error "AttributeError: object has no attribute \x27lower\x27"

-- =========================================================================
-- Conversation objectives (CONVERSATION_OBJECTIVES) and context
-- =========================================================================

/-- One entry of `CONVERSATION_OBJECTIVES["primary_goals"]`. -/
structure Objective where
  id : String
  name : String
  description : String
  priority : Nat
  completion_indicator : String
  natural_approach : String
deriving Repr, DecidableEq

/-- Embeds `primary_goals[0]`: application-form collection (priority 1). -/
def objApplication : Objective :=
  { id := "collect_application"
    name := "Application Form Collection"
    description := "Get the candidate to fill out the application form"
    priority := 1
    completion_indicator := "form_completed"
    natural_approach := "Mention the form as a quick step to get them into the system" }

/-- Embeds `primary_goals[1]`: resume collection (priority 2). -/
def objResume : Objective :=
  { id := "collect_resume"
    name := "Resume Collection"
    description := "Obtain the candidate\x27s resume/CV"
    priority := 2
    completion_indicator := "resume_received"
    natural_approach := "Ask for their resume so you can match them to suitable roles" }

/-- Embeds `primary_goals[2]`: experience assessment (priority 3). -/
def objExperience : Objective :=
  { id := "assess_experience"
    name := "Experience Assessment"
    description := "Understand the candidate\x27s relevant experience for the role"
    priority := 3
    completion_indicator := "experience_discussed"
    natural_approach := "Have a natural conversation about their background and skills" }

/-- Embeds `primary_goals[3]`: eligibility verification (priority 4). -/
def objEligibility : Objective :=
  { id := "verify_eligibility"
    name := "Eligibility Verification"
    description := "Confirm citizenship/PR status and availability"
    priority := 4
    completion_indicator := "eligibility_confirmed"
    natural_approach := "Casually confirm they\x27re a Singapore Citizen or PR" }

/-- Embeds `CONVERSATION_OBJECTIVES["primary_goals"]`, in list order. -/
def PRIMARY_GOALS : List Objective :=
  [objApplication, objResume, objExperience, objEligibility]

/-- Embeds `ConversationStage` enum. -/
inductive ConversationStage where
  | INITIAL_CONTACT | FORM_PENDING | FORM_COMPLETED | RESUME_PENDING
  | RESUME_RECEIVED | EXPERIENCE_DISCUSSION | QUALIFICATION_CHECK
  | CLOSING | FOLLOW_UP
deriving Repr, DecidableEq

/-- Embeds `ConversationContext` dataclass (the `key_info` and
`conversation_history_summary` fields are never read by the embedded
functions and are omitted). -/
structure ConversationContext where
  user_id : String
  candidate_name : Option String := none
  applied_role : Option String := none
  form_completed : Bool := false
  resume_received : Bool := false
  experience_discussed : Bool := false
  eligibility_confirmed : Bool := false
  citizenship_status : Option String := none
  stage : ConversationStage := .INITIAL_CONTACT
deriving Repr, DecidableEq

/-- The loop body of `ConversationContext.get_pending_objectives`: is this
objective still pending for this context? -/
def objectivePending (ctx : ConversationContext) (obj : Objective) : Bool :=
  if obj.completion_indicator = "form_completed" then !ctx.form_completed
  else if obj.completion_indicator = "resume_received" then !ctx.resume_received
  else if obj.completion_indicator = "experience_discussed" then !ctx.experience_discussed
  else if obj.completion_indicator = "eligibility_confirmed" then !ctx.eligibility_confirmed
  else false

/-- Embeds `ConversationContext.get_pending_objectives()`. -/
def get_pending_objectives (ctx : ConversationContext) : List Objective :=
  PRIMARY_GOALS.filter (objectivePending ctx)

/-- Python `min(xs, key=lambda x: x.priority)` on a non-empty list:
the first element of minimal priority. -/
def pyMinByPriority (x : Objective) (rest : List Objective) : Objective :=
  rest.foldl (fun acc o => if o.priority < acc.priority then o else acc) x

/-- Embeds `ConversationContext.get_next_objective()`. -/
def get_next_objective (ctx : ConversationContext) : Option Objective :=
  match get_pending_objectives ctx with
  | [] => none
  | x :: rest => some (pyMinByPriority x rest)

/-- Embeds `ConversationContext.is_ready_to_close()`. -/
def is_ready_to_close (ctx : ConversationContext) : Bool :=
  ctx.form_completed && ctx.resume_received && ctx.experience_discussed

-- =========================================================================
-- Context builder (build_system_prompt)
-- =========================================================================

/-- Embeds `"\n".join(parts)` (Python `str.join`). -/
def joinParts : List String → String
  | [] => ""
  | [p] => p
  | p :: rest => p ++ "\n" ++ joinParts rest

/-- Identity + role section of the system prompt. -/
def prompt_identity : List String :=
  [ "You are " ++ RECRUITER_NAME ++ ", a recruiter at " ++ COMPANY_FULL_NAME ++ " (" ++ COMPANY_NAME ++ ")."
  , ""
  , "## YOUR ROLE"
  , "You\x27re helping candidates find suitable part-time and contract positions in Singapore. You work for " ++ COMPANY_NAME ++ ", a staffing agency."
  , "" ]

/-- Communication-style + message-format section of the system prompt. -/
def prompt_style : List String :=
  [ "## HOW TO COMMUNICATE"
  , "- Be " ++ STYLE_TONE
  , "- Use casual language: \x27u\x27 instead of \x27you\x27, \x27ur\x27 instead of \x27your\x27, \x27cos\x27 instead of \x27because\x27"
  , "- Match the candidate\x27s energy - if they\x27re brief, be brief. If chatty, be more conversational"
  , "- Keep responses natural and conversational, not scripted"
  , ""
  , "## MESSAGE FORMAT"
  , "- Use \x27---\x27 to split into multiple short messages (1-2 sentences each)"
  , "- Less is more - don\x27t over-explain"
  , "- Example format:"
  , "\"got it!\""
  , "---"
  , "\"are u a sg citizen or pr?\""
  , "" ]

/-- Candidate-facts + progress section ("## ABOUT THIS CANDIDATE"). -/
def prompt_candidate (kb : Knowledge) (ctx : ConversationContext) : List String :=
  ["## ABOUT THIS CANDIDATE"]
  ++ (if optTruthy ctx.candidate_name then
        ["- Name: " ++ ctx.candidate_name.getD ""] else [])
  ++ (match ctx.applied_role with
      | some r =>
        if r ≠ "" then
          ["- Interested in: " ++ ((get_role_info kb r).title.getD r)]
        else []
      | none => [])
  ++ (if optTruthy ctx.citizenship_status then
        ["- Citizenship: " ++ ctx.citizenship_status.getD ""] else [])
  ++ (let completed :=
        (if ctx.form_completed then ["filled the application form"] else [])
        ++ (if ctx.resume_received then ["sent their resume"] else [])
        ++ (if ctx.experience_discussed then ["discussed their experience"] else [])
      if completed ≠ [] then
        ["- Already done: " ++ pyJoinWith ", " completed] else [])
  ++ [""]

/-- The "## YOUR CURRENT FOCUS" section: the single next objective, or the
closing directive when every objective is met. -/
def focusSectionParts (kb : Knowledge) (ctx : ConversationContext) : List String :=
  match get_next_objective ctx with
  | some obj =>
    [ "## YOUR CURRENT FOCUS"
    , "- " ++ obj.description
    , "- Approach: " ++ obj.natural_approach
    , "" ]
  | none =>
    if is_ready_to_close ctx then
      [ "## YOUR CURRENT FOCUS"
      , "- All main info collected - can wrap up the conversation"
      , "- Use: \"" ++ kb.closing_phrase ++ "\""
      , "" ]
    else []

/-- The negative-constraints section. -/
def prompt_dont : List String :=
  [ "## DON\x27T"
  , "- Repeat information they already told you"
  , "- Ask for things they\x27ve already provided (form/resume)"
  , "- Be overly enthusiastic with exclamation marks"
  , "- Promise to call them - just say you\x27ll be in touch if shortlisted"
  , "- Send very long messages - keep it casual and brief"
  , "" ]

/-- The section "## WHAT YOU KNOW" section. -/
def prompt_knowledge : List String :=
  [ "## WHAT YOU KNOW"
  , "- Application form: " ++ APPLICATION_FORM_URL ++ " (select \x27" ++ RECRUITER_NAME ++ "\x27 as consultant)"
  , "- Company: " ++ COMPANY_DESCRIPTION
  , "- EA Licence: " ++ EA_LICENCE
  , "- Website: www.cgp.sg for more job listings"
  , "" ]

/-- The per-role detail lines of "## CURRENT JOB OPENINGS". -/
def roleLines (k : String) (r : RoleInfo) : List String :=
  ["**" ++ (r.title.getD k) ++ "**"]
  ++ (if optTruthy r.salary then ["- Pay: " ++ r.salary.getD ""] else [])
  ++ (if optTruthy r.location then ["- Location: " ++ r.location.getD ""] else [])
  ++ (if optTruthy r.work_type then ["- Type: " ++ r.work_type.getD ""] else [])
  ++ (match r.shifts with
      | some sh =>
        ["- Shifts: Day (" ++ sh.day.getD "TBD" ++ ") or Overnight (" ++ sh.overnight.getD "TBD" ++ ")"]
      | none => [])
  ++ (if r.requirements ≠ [] then
        ["- Requirements: " ++ pyJoinWith ", " r.requirements] else [])
  ++ (if optTruthy r.citizenship_required then
        (if r.citizenship_required.getD "" = "SC" then
          ["- **IMPORTANT: Singaporeans Only**"] else [])
      else [])
  ++ (if optTruthy r.job_url then
        [ "- **Job Posting**: " ++ r.job_url.getD ""
        , "  (Share this link with candidates when they ask about the position)" ]
      else [])
  ++ [""]

/-- The section "## CURRENT JOB OPENINGS" section (or the no-openings fallback). -/
def prompt_roles (kb : Knowledge) : List String :=
  let active := get_active_roles kb
  if active ≠ [] then
    "## CURRENT JOB OPENINGS" :: (active.map (fun p => roleLines p.1 p.2)).flatten
  else
    [ "## CURRENT OPENINGS"
    , "- No specific openings at the moment, but collect their info for future opportunities"
    , "" ]

/-- Embeds `build_system_prompt(context)`: the full directive document. -/
def build_system_prompt (kb : Knowledge) (ctx : ConversationContext) : String :=
  joinParts
    (prompt_identity ++ prompt_style ++ prompt_candidate kb ctx
      ++ focusSectionParts kb ctx ++ prompt_dont ++ prompt_knowledge
      ++ prompt_roles kb)

-- =========================================================================
-- Conversation state and per-user memory (ai_screening.py)
-- =========================================================================

/-- One conversation-history entry (`{"role": ..., "content": ...}`). -/
structure Msg where
  role : String
  content : String
deriving Repr, DecidableEq

/-- A per-user conversation-state dictionary. -/
structure StateD where
  stage : String := "new"
  applied_role : Option String := none
  candidate_name : Option String := none
  resume_received : Bool := false
  form_completed : Bool := false
  experience_discussed : Bool := false
  call_scheduled : Bool := false
  citizenship_status : Option String := none
deriving Repr, DecidableEq

/-- The default state created by `get_conversation_state` (both engines). -/
def defaultState : StateD := {}

/-- The per-user slice of the module-level dictionaries of the shared engine
(`conversations[user]`, `conversation_states[user]`). -/
structure SharedMem where
  conv : List Msg := []
  state : Option StateD := none
deriving Repr, DecidableEq

/-- Embeds `get_conversation_state(user_id)`: return the state, creating (and
storing) the default record if absent. -/
def getStateS (m : SharedMem) : StateD × SharedMem :=
  match m.state with
  | some s => (s, m)
  | none => (defaultState, { m with state := some defaultState })

/-- The current state value of a user (read-only view). -/
def stateVal (m : SharedMem) : StateD :=
  (getStateS m).1

/-- Embeds `update_conversation_state(user_id, **kwargs)`: read-or-create, then
merge the keyword updates `f` (the context dictionary is re-synced from the
state by `_sync_state_to_context`, so it needs no separate tracking). -/
def updStateS (m : SharedMem) (f : StateD → StateD) : SharedMem :=
  let (s, m') := getStateS m
  { m' with state := some (f s) }

/-- Embeds `MAX_MESSAGES` of the shared engine. -/
def MAX_MESSAGES_shared : Nat := 10

/-- Embeds `add_message(user_id, role, content)` of the shared engine: append and
keep only the last `MAX_MESSAGES * 2` entries. -/
def addMessageS (m : SharedMem) (role content : String) : SharedMem :=
  let c := m.conv ++ [{ role := role, content := content }]
  { m with conv := if c.length > MAX_MESSAGES_shared * 2 then
      c.drop (c.length - MAX_MESSAGES_shared * 2) else c }

-- =========================================================================
-- State detection from user messages (ai_screening.detect_state_from_message)
-- =========================================================================

/-- Embeds `form_completion_keywords` of the shared detector. -/
def form_completion_keywords : List String :=
  [ "done", "completed", "finished", "filled", "submitted"
  , "i\x27ve completed", "i have completed", "just completed"
  , "form done", "already done", "already filled" ]

/-- Embeds `citizenship_indicators` of the shared detector, in iteration order. -/
def citizenship_indicators : List (String × String) :=
  [ ("singapore citizen", "SC"), ("singaporean", "SC"), ("sg citizen", "SC")
  , ("citizen", "SC"), ("permanent resident", "PR"), ("pr", "PR")
  , ("foreigner", "Foreign"), ("work permit", "Foreign")
  , ("student pass", "Foreign"), ("ep holder", "Foreign"), ("s pass", "Foreign") ]

/-- Embeds `time_patterns` of the shared detector. -/
def time_patterns : List String :=
  ["pm", "am", "oclock", "o\x27clock", "available", "can make it", "free on"]

/-- Form-completion block of `detect_state_from_message`. -/
def detectFormStep (m : SharedMem) (messageLower : String) : SharedMem :=
  if form_completion_keywords.any (fun k => containsSub messageLower k) then
    if !(stateVal m).form_completed then
      updStateS m (fun s => { s with form_completed := true, stage := "form_completed" })
    else m
  else m

/-- Role-interest block of `detect_state_from_message` (the role title is
looked up in the static `ROLE_KNOWLEDGE`, defaulting to the key). -/
def detectRoleStep (kb : Knowledge) (m : SharedMem) (message : String) : SharedMem :=
  match identify_role_from_text kb message with
  | some r =>
    if r ≠ "general" then
      let role_title := match ROLE_KNOWLEDGE.lookup r with
        | some info => info.title.getD r
        | none => r
      updStateS m (fun s => { s with applied_role := some role_title })
    else m
  | none => m

/-- Citizenship block of `detect_state_from_message` (first indicator wins,
then `break`). -/
def detectCitStep (m : SharedMem) (messageLower : String) : SharedMem :=
  match citizenship_indicators.find? (fun p => containsSub messageLower p.1) with
  | some p => updStateS m (fun s => { s with citizenship_status := some p.2 })
  | none => m

/-- Availability/scheduling block of `detect_state_from_message`. -/
def detectTimeStep (m : SharedMem) (messageLower : String) : SharedMem :=
  if time_patterns.any (fun k => containsSub messageLower k) then
    if (stateVal m).experience_discussed then
      updStateS m (fun s => { s with call_scheduled := true, stage := "call_scheduling" })
    else m
  else m

/-- Embeds `detect_state_from_message(user_id, message)` of the shared engine:
the four detector blocks, in source order (the `state` alias read by each
block is the live dictionary, so each block sees the updates of earlier blocks). -/
def detect_state_from_message (kb : Knowledge) (m : SharedMem) (message : String) : SharedMem :=
  let ml := pyLower message
  detectTimeStep (detectCitStep (detectRoleStep kb (detectFormStep m ml) message) ml) ml

-- =========================================================================
-- State detection from assistant replies (ai_screening._update_state_from_response)
-- =========================================================================

/-- Form-link block of `_update_state_from_response`. -/
def respFormStep (m : SharedMem) (responseLower : String) : SharedMem :=
  if containsSub responseLower (pyLower APPLICATION_FORM_URL)
      || containsSub responseLower "application form" then
    updStateS m (fun s => { s with stage := "form_sent" })
  else m

/-- Resume-request block of `_update_state_from_response`. -/
def respResumeStep (m : SharedMem) (responseLower : String) : SharedMem :=
  if containsSub responseLower "resume"
      && (containsSub responseLower "send" || containsSub responseLower "have") then
    if (stateVal m).form_completed then
      updStateS m (fun s => { s with stage := "resume_requested" })
    else m
  else m

/-- Experience-question block of `_update_state_from_response`. -/
def respExperienceStep (m : SharedMem) (responseLower : String) : SharedMem :=
  if ["experience", "worked", "background", "skills"].any
      (fun k => containsSub responseLower k) then
    if (stateVal m).resume_received then
      updStateS m (fun s => { s with experience_discussed := true, stage := "experience_asked" })
    else m
  else m

/-- Closing block of `_update_state_from_response`. -/
def respClosingStep (m : SharedMem) (responseLower : String) : SharedMem :=
  if ["will contact", "shortlisted", "be in touch", "get back to u"].any
      (fun k => containsSub responseLower k) then
    updStateS m (fun s => { s with stage := "conversation_closed" })
  else m

/-- Embeds `_update_state_from_response(user_id, response)` of the shared engine. -/
def update_state_from_response (m : SharedMem) (response : String) : SharedMem :=
  let rl := pyLower response
  respClosingStep (respExperienceStep (respResumeStep (respFormStep m rl) rl) rl) rl

-- =========================================================================
-- build_context_from_state and response helpers (knowledgebase.py)
-- =========================================================================

/-- The `stage_mapping` dictionary of `build_context_from_state`. -/
def stageMapping (stage : String) : ConversationStage :=
  if stage = "new" then .INITIAL_CONTACT
  else if stage = "form_sent" then .FORM_PENDING
  else if stage = "form_completed" then .FORM_COMPLETED
  else if stage = "resume_requested" then .RESUME_PENDING
  else if stage = "resume_received" then .RESUME_RECEIVED
  else if stage = "experience_asked" then .EXPERIENCE_DISCUSSION
  else if stage = "call_scheduling" then .CLOSING
  else if stage = "conversation_closed" then .CLOSING
  else .INITIAL_CONTACT

/-- Embeds `build_context_from_state(user_id, state)` (the state dictionary handed
to it by the engines is always non-empty, so the `if state:` guard always
holds; `citizenship_status` is notably never copied into the context). -/
def build_context_from_state (kb : Knowledge) (user_id : String) (state : StateD) :
    ConversationContext :=
  { user_id := user_id
    candidate_name := state.candidate_name
    form_completed := state.form_completed
    resume_received := state.resume_received
    experience_discussed := state.experience_discussed
    eligibility_confirmed := state.call_scheduled
    applied_role :=
      match state.applied_role with
      | some ar =>
        if ar ≠ "" then some ((identify_role_from_text kb ar).getD "general")
        else none
      | none => none
    stage := stageMapping state.stage }

/-- Embeds `get_first_contact_response(candidate_name)`. -/
def get_first_contact_response (candidate_name : Option String) : String :=
  let name := if optTruthy candidate_name then candidate_name.getD "" else "there"
  joinParts
    [ "Hi " ++ name ++ ", I\x27m " ++ RECRUITER_NAME ++ " from " ++ COMPANY_NAME ++ " :)"
    , "---"
    , "Could u fill up this quick form for me? " ++ APPLICATION_FORM_URL
    , "---"
    , "Just select \x27" ++ RECRUITER_NAME ++ "\x27 as the consultant"
    , "---"
    , "Let me know once ur done and send me ur resume too" ]

/-- The question chosen by `get_resume_acknowledgment` (role-specific first
experience question when a role key is given, else the generic fallback). -/
def ackQuestion (kb : Knowledge) (role_key : Option String) : String :=
  if optTruthy role_key then get_experience_question kb (role_key.getD "")
  else "what kind of work are u looking for?"

/-- Embeds `get_resume_acknowledgment(candidate_name, role_key)`:
`candidate_name.split()[0]` raises `IndexError` when the name is non-empty
but contains no non-whitespace token. -/
def get_resume_acknowledgment (kb : Knowledge) (candidate_name : String)
    (role_key : Option String) : Except String String :=
  let firstE : Except String String :=
    if candidate_name ≠ "" then
      match pySplit candidate_name with
      | [] => .error "IndexError: list index out of range"
      | f :: _ => .ok f
    else .ok "there"
  match firstE with
  | .error e => .error e
  | .ok first_name =>
    .ok ("thanks " ++ first_name ++ "!\n---\n" ++ ackQuestion kb role_key)

-- =========================================================================
-- Shared engine: restore + per-turn loop (ai_screening.py)
-- =========================================================================

/-- What the repository returns to the shared engine
(`load_conversation_history` → `None`/list, modelled by a possibly-empty
list; `load_conversation_state` → `None`/state dict). -/
structure SharedEnv where
  dbHistory : List Msg := []
  dbState : Option StateD := none
deriving Repr

/-- Keep the last `n` entries of a list (`xs[-n:]`). -/
def takeLast (n : Nat) (xs : List Msg) : List Msg :=
  xs.drop (xs.length - n)

/-- Embeds `restore_conversation_from_db(user_id, platform)` of the shared engine:
skipped entirely when non-empty history is already in memory; otherwise
loads history (if any) and state (if any) from the repository.  There is no
per-process "already restored" marker in this engine. -/
def restoreShared (env : SharedEnv) (m : SharedMem) : SharedMem :=
  if m.conv ≠ [] then m
  else
    let m1 := if env.dbHistory ≠ [] then
        { m with conv := takeLast (MAX_MESSAGES_shared * 2) env.dbHistory }
      else m
    match env.dbState with
    | some s => { m1 with state := some s }
    | none => m1

/-- The fixed apology returned on any LLM failure (both engines). -/
def APOLOGY : String := "sorry, having some trouble. could u try again?"

/-- The preparation phase of the shared `get_ai_response`, up to — but not
including — the LLM call: restore, empty-input normalisation, user-text
detection, optional candidate-name update, history append, and the
valid-message filter.  Returns (memory, normalised message, valid list). -/
def sharedPrep (kb : Knowledge) (env : SharedEnv) (m : SharedMem)
    (message : String) (candidate_name : Option String) :
    SharedMem × String × List Msg :=
  let m0 := restoreShared env m
  let msg1 := if pyStrip message = "" then "[Empty message]" else message
  let m1 := detect_state_from_message kb m0 msg1
  let m2 := if optTruthy candidate_name then
      updStateS m1 (fun s => { s with candidate_name := candidate_name })
    else m1
  let m3 := addMessageS m2 "user" msg1
  let valid := m3.conv.filter (fun x => !(x.content == "") && pyStrip x.content ≠ "")
  (m3, msg1, valid)

/-- Embeds `get_ai_response(user_id, message, candidate_name, platform)` of the
shared engine.  The LLM completion outcome is passed as `llm`; the final
`Bool` records whether the LLM was invoked for this turn. -/
def sharedGetAiResponse (kb : Knowledge) (env : SharedEnv) (m : SharedMem)
    (message : String) (candidate_name : Option String)
    (llm : Except String String) : String × SharedMem × Bool :=
  let p := sharedPrep kb env m message candidate_name
  let m1 := p.1
  let valid := p.2.2
  if valid = [] ∨ valid.length ≤ 1 then
    let m2 := updStateS m1 (fun s => { s with stage := "form_sent" })
    let response := get_first_contact_response candidate_name
    let m3 := addMessageS m2 "assistant" response
    (response, m3, false)
  else
    -- the system prompt handed to the LLM:
    -- build_system_prompt (build_context_from_state kb user_id (stateVal m1))
    match llm with
    | .ok ai_message =>
      let m2 := addMessageS m1 "assistant" ai_message
      let m3 := update_state_from_response m2 ai_message
      (ai_message, m3, true)
    | .error _ => (APOLOGY, m1, true)

-- =========================================================================
-- Telegram-local engine (main.py)
-- =========================================================================

/-- A repository read performed by the `restore_conversation_from_db` of
`main.py`: the conversation-state read
(`get_or_create_conversation_state`) or the message-history read
(`get_conversation_messages`). -/
inductive LoadEvent where
  | stateLoad
  | historyLoad
deriving Repr, DecidableEq

/-- What the repository returns to the telegram engine.  `dbOk = false`
means the first repository call raises (the `except` branch is taken). -/
structure MainEnv where
  dbOk : Bool := true
  dbState : Option StateD := none
  dbMessages : List Msg := []
deriving Repr

/-- The per-user slice of the module-level dictionaries of `main.py`:
`conversations[user]`, `conversation_states[user]`, and membership in
`restored_users`. -/
structure MainMem where
  conv : List Msg := []
  state : Option StateD := none
  restored : Bool := false
deriving Repr, DecidableEq

/-- Embeds `MAX_MESSAGES` of the telegram engine. -/
def MAX_MESSAGES_main : Nat := 25

/-- Embeds `restore_conversation_from_db(user_id)` of `main.py`, together with the
repository reads it performs.  The state read happens on *every* call; only
the history read is guarded by `restored_users`; the user is added to
`restored_users` both on success and in the `except` branch.
A restored state dictionary carries no `call_scheduled` key; later reads use
`state.get("call_scheduled", False)`, so it is modelled as `false`. -/
def mainRestore (env : MainEnv) (m : MainMem) : MainMem × List LoadEvent :=
  let already_restored := m.restored
  if env.dbOk then
    let m1 := match env.dbState with
      | some s => { m with state := some s }
      | none => m
    if !already_restored then
      let m2 := if env.dbMessages ≠ [] then { m1 with conv := env.dbMessages } else m1
      ({ m2 with restored := true }, [LoadEvent.stateLoad, LoadEvent.historyLoad])
    else (m1, [LoadEvent.stateLoad])
  else
    ({ m with restored := true }, [LoadEvent.stateLoad])

/-- Embeds `get_conversation_state` / `update_conversation_state` of `main.py`
(same read-or-create-then-merge semantics as the shared engine). -/
def getStateM (m : MainMem) : StateD × MainMem :=
  match m.state with
  | some s => (s, m)
  | none => (defaultState, { m with state := some defaultState })

/-- Read-only view of the current state of the telegram user. -/
def stateValM (m : MainMem) : StateD :=
  (getStateM m).1

/-- Embeds `update_conversation_state_async(user_id, **kwargs)` (the DB write error
path is swallowed and does not affect in-memory state). -/
def updStateM (m : MainMem) (f : StateD → StateD) : MainMem :=
  let (s, m') := getStateM m
  { m' with state := some (f s) }

/-- Embeds `add_message_async` of `main.py` (memory append + capped window; the DB
append error path is swallowed). -/
def addMessageM (m : MainMem) (role content : String) : MainMem :=
  let c := m.conv ++ [{ role := role, content := content }]
  { m with conv := if c.length > MAX_MESSAGES_main * 2 then
      c.drop (c.length - MAX_MESSAGES_main * 2) else c }

/-- Embeds `form_keywords` of the telegram detector. -/
def form_keywords_main : List String :=
  ["done", "completed", "finished", "filled", "submitted"]

/-- Embeds `citizenship_map` of the telegram detector, in iteration order. -/
def citizenship_map_main : List (String × String) :=
  [ ("singapore citizen", "SC"), ("singaporean", "SC"), ("sg citizen", "SC")
  , ("permanent resident", "PR"), (" pr ", "PR"), ("foreigner", "Foreign") ]

/-- Form block of `detect_state_from_message_async`. -/
def mainDetectFormStep (m : MainMem) (messageLower : String) : MainMem :=
  if form_keywords_main.any (fun k => containsSub messageLower k) then
    if !(stateValM m).form_completed then
      updStateM m (fun s => { s with form_completed := true, stage := "form_completed" })
    else m
  else m

/-- Role block of `detect_state_from_message_async`
(`identify_role_semantic` falls back to `identify_role_from_text` when the
embedding service is unavailable; the keyword fallback is what is modelled —
whichever key is detected, only `applied_role` is written). -/
def mainDetectRoleStep (kb : Knowledge) (m : MainMem) (message : String) : MainMem :=
  match identify_role_from_text kb message with
  | some r =>
    if r ≠ "general" then updStateM m (fun s => { s with applied_role := some r })
    else m
  | none => m

/-- Citizenship block of `detect_state_from_message_async`. -/
def mainDetectCitStep (m : MainMem) (messageLower : String) : MainMem :=
  match citizenship_map_main.find? (fun p => containsSub messageLower p.1) with
  | some p => updStateM m (fun s => { s with citizenship_status := some p.2 })
  | none => m

/-- Embeds `detect_state_from_message_async(user_id, message)` of `main.py`
(no availability/scheduling block in this engine). -/
def mainDetect (kb : Knowledge) (m : MainMem) (message : String) : MainMem :=
  let ml := pyLower message
  mainDetectCitStep (mainDetectRoleStep kb (mainDetectFormStep m ml) message) ml

/-- Resume-request block of the response-state update inlined in the
`get_ai_response` of `main.py`. -/
def mainRespResumeStep (m : MainMem) (responseLower : String) : MainMem :=
  if containsSub responseLower "resume"
      && (containsSub responseLower "send" || containsSub responseLower "have") then
    if (stateValM m).form_completed then
      updStateM m (fun s => { s with stage := "resume_requested" })
    else m
  else m

/-- Closing block of the response-state update inlined in the
`get_ai_response` of `main.py`. -/
def mainRespClosingStep (m : MainMem) (responseLower : String) : MainMem :=
  if ["will contact", "shortlisted"].any (fun k => containsSub responseLower k) then
    updStateM m (fun s => { s with stage := "conversation_closed" })
  else m

/-- The response-content state update inlined in the `get_ai_response` of
`main.py` (lines following the completion call). -/
def mainRespUpdate (m : MainMem) (ai_message : String) : MainMem :=
  let rl := pyLower ai_message
  mainRespClosingStep (mainRespResumeStep m rl) rl

/-- The canned greeting built by the (unreachable) first-message branch of
`main.py`. -/
def mainGreeting : String :=
  "Hi! I\x27m " ++ RECRUITER_NAME ++ " from " ++ COMPANY_NAME ++ " :)\n---\nCould u fill up this form? "
    ++ APPLICATION_FORM_URL ++ "\n---\nJust select \x27" ++ RECRUITER_NAME ++ "\x27 as the consultant"

/-- The preparation phase of the `get_ai_response` of `main.py`, up to —
but not including — the LLM call. -/
def mainPrep (kb : Knowledge) (env : MainEnv) (m : MainMem)
    (message : String) (candidate_name : Option String) :
    MainMem × String × List Msg :=
  let m0 := (mainRestore env m).1
  let msg1 := if pyStrip message = "" then "[Empty message]" else message
  let m1 := mainDetect kb m0 msg1
  let m2 := if optTruthy candidate_name && !(optTruthy (stateValM m1).candidate_name) then
      updStateM m1 (fun s => { s with candidate_name := candidate_name })
    else m1
  let m3 := addMessageM m2 "user" msg1
  let valid := m3.conv.filter (fun x => !(x.content == "") && pyStrip x.content ≠ "")
  (m3, msg1, valid)

/-- Embeds `get_ai_response(user_id, message, candidate_name)` of `main.py`.
The final `Bool` records whether the LLM was invoked for this turn.
Note the first-message branch guard is `if not valid_messages:` — with the
just-appended (never-blank) inbound message, `valid` is never empty. -/
def mainGetAiResponse (kb : Knowledge) (env : MainEnv) (m : MainMem)
    (message : String) (candidate_name : Option String)
    (llm : Except String String) : String × MainMem × Bool :=
  let p := mainPrep kb env m message candidate_name
  let m1 := p.1
  let valid := p.2.2
  if valid = [] then
    let m2 := addMessageM m1 "assistant" mainGreeting
    (mainGreeting, m2, false)
  else
    -- the system prompt handed to the LLM:
    -- build_system_prompt kb (build_context_from_state kb user_id (stateValM m1))
    -- (plus best-effort RAG augmentation, irrelevant to the claims)
    match llm with
    | .ok ai_message =>
      let m2 := addMessageM m1 "assistant" ai_message
      let m3 := mainRespUpdate m2 ai_message
      (ai_message, m3, true)
    | .error _ => (APOLOGY, m1, true)

-- =========================================================================
-- Resume screening: prompt templates (SCREENING_PROMPT, both variants)
-- =========================================================================

/-- The hard business rule baked into both screening prompts. -/
def CITIZENSHIP_DIRECTIVE : String :=
  "If no clear indicator of SC/PR status is found, set recommendation to \"Rejected\" unless the role specifically allows foreigners."

/-- Embeds `SCREENING_PROMPT` up to the `{job_roles}` placeholder (identical in
both variants). -/
def SCREEN_A : String :=
  "You are analyzing a resume for a staffing agency. Your task is to evaluate the candidate.\n\nAVAILABLE JOB ROLES:\n"

/-- Embeds `SCREENING_PROMPT` between `{job_roles}` and `{resume_text}`. -/
def SCREEN_B : String := "\n\nRESUME TEXT:\n"

/-- Embeds `SCREENING_PROMPT` from after `{resume_text}` up to the citizenship
directive (identical in both variants). -/
def SCREEN_C1 : String :=
  "\n\nINSTRUCTIONS:\n1. Identify which job role the candidate is applying for based on context. Match to one of the available roles.\n2. Analyze the resume against that role\x27s requirements.\n3. Extract contact information (email, phone) if visible.\n\nCITIZENSHIP REQUIREMENT (CRITICAL):\nMost roles require Singapore Citizens or Permanent Residents. Look for indicators:\n- NRIC number (S/T = Citizen, F/G = PR)\n- National Service (NS) completion\n- Singapore address\n- Local education (NUS, NTU, SMU, polytechnics, ITE)\n- Explicit mention of citizenship/PR status\n\n"

/-- Tail of the shared (`ai_screening.py`) `SCREENING_PROMPT`, after the
citizenship directive (with `{{`/`}}` already rendered to literal braces,
as `str.format` produces). -/
def SCREEN_C2_shared : String :=
  "\n\nRESPONSE FORMAT:\nReturn ONLY a JSON object with no other text:\n\x7b\n    \"candidate_name\": \"Full name from resume\",\n    \"candidate_email\": \"email@example.com or null\",\n    \"candidate_phone\": \"+65 XXXX XXXX or null\",\n    \"job_applied\": \"Role from context if mentioned\",\n    \"job_matched\": \"Best matching role from your list\",\n    \"score\": 7,\n    \"citizenship_status\": \"Singapore Citizen|PR|Unknown|Foreigner\",\n    \"recommendation\": \"Top Candidate|Review|Rejected\",\n    \"summary\": \"Brief evaluation including citizenship verification\"\n\x7d\n\nUse the scoring guide for the matched role. Score 1-10."

/-- Tail of the telegram-local (`main.py`) `SCREENING_PROMPT`, after the
citizenship directive. -/
def SCREEN_C2_main : String :=
  "\n\nRESPONSE FORMAT:\nReturn a JSON object:\n\x7b\n    \"candidate_name\": \"Full name from resume\",\n    \"candidate_email\": \"email@example.com or null\",\n    \"candidate_phone\": \"+65 XXXX XXXX or null\",\n    \"job_matched\": \"Best matching role from your list\",\n    \"score\": 7,\n    \"citizenship_status\": \"Singapore Citizen|PR|Unknown|Foreigner\",\n    \"recommendation\": \"Top Candidate|Review|Rejected\",\n    \"summary\": \"Brief evaluation including citizenship verification\"\n\x7d\n\nUse the scoring guide for the matched role. Score 1-10."

/-- Embeds `SCREENING_PROMPT.format(job_roles=..., resume_text=resume_text[:15000])`
of the shared engine. -/
def screeningPromptShared (job_roles resume_text : String) : String :=
  SCREEN_A ++ job_roles ++ SCREEN_B ++ pyTake resume_text 15000
    ++ SCREEN_C1 ++ CITIZENSHIP_DIRECTIVE ++ SCREEN_C2_shared

/-- Embeds `SCREENING_PROMPT.format(job_roles=..., resume_text=resume_text[:15000])`
of the telegram engine. -/
def screeningPromptMain (job_roles resume_text : String) : String :=
  SCREEN_A ++ job_roles ++ SCREEN_B ++ pyTake resume_text 15000
    ++ SCREEN_C1 ++ CITIZENSHIP_DIRECTIVE ++ SCREEN_C2_main

-- =========================================================================
-- JSON values and a model of json.loads
-- =========================================================================

/-- A parsed JSON value (numbers keep their lexeme). -/
inductive Json where
  | jnull
  | jbool (b : Bool)
  | jnum (raw : String)
  | jstr (s : String)
  | jarr (xs : List Json)
  | jobj (fields : List (String × Json))
deriving Repr

/-- JSON whitespace skipping. -/
def jsonWs : List Char → List Char
  | c :: rest =>
    if c = ' ' ∨ c = '\t' ∨ c = '\n' ∨ c = '\r' then jsonWs rest else c :: rest
  | [] => []

/-- Hexadecimal digit value. -/
def hexVal (c : Char) : Option Nat :=
  if '0' ≤ c ∧ c ≤ '9' then some (c.toNat - '0'.toNat)
  else if 'a' ≤ c ∧ c ≤ 'f' then some (c.toNat - 'a'.toNat + 10)
  else if 'A' ≤ c ∧ c ≤ 'F' then some (c.toNat - 'A'.toNat + 10)
  else none

/-- Parse the body of a JSON string (after the opening quote), handling the
standard escapes (`\uXXXX` is decoded as a single code point; surrogate
pairing is not modelled).  Unescaped control characters are rejected, as in
the strict mode of `json.loads`. -/
def parseJStr (fuel : Nat) (cs : List Char) : Option (String × List Char) :=
  match fuel, cs with
  | 0, _ => none
  | _, [] => none
  | fuel + 1, c :: rest =>
    if c = '"' then some ("", rest)
    else if c = '\\' then
      match rest with
      | [] => none
      | e :: rest2 =>
        let cont : Char → List Char → Option (String × List Char) := fun ch rs =>
          match parseJStr fuel rs with
          | some (s, r) => some (String.mk (ch :: s.data), r)
          | none => none
        if e = '"' then cont '"' rest2
        else if e = '\\' then cont '\\' rest2
        else if e = '/' then cont '/' rest2
        else if e = 'b' then cont (Char.ofNat 8) rest2
        else if e = 'f' then cont (Char.ofNat 12) rest2
        else if e = 'n' then cont '\n' rest2
        else if e = 'r' then cont '\r' rest2
        else if e = 't' then cont '\t' rest2
        else if e = 'u' then
          match rest2 with
          | h1 :: h2 :: h3 :: h4 :: rest3 =>
            match hexVal h1, hexVal h2, hexVal h3, hexVal h4 with
            | some a, some b, some c2, some d =>
              cont (Char.ofNat (((a * 16 + b) * 16 + c2) * 16 + d)) rest3
            | _, _, _, _ => none
          | _ => none
        else none
    else if c.toNat < 32 then none
    else
      match parseJStr fuel rest with
      | some (s, r) => some (String.mk (c :: s.data), r)
      | none => none

/-- Take a maximal run of decimal digits. -/
def spanDigits : List Char → List Char × List Char
  | c :: rest =>
    if c.isDigit then
      let (ds, r) := spanDigits rest
      (c :: ds, r)
    else ([], c :: rest)
  | [] => ([], [])

/-- Optional fraction part of a JSON number. -/
def parseJFrac (cs : List Char) : Option (List Char × List Char) :=
  match cs with
  | '.' :: r =>
    let (ds, rest) := spanDigits r
    if ds = [] then none else some ('.' :: ds, rest)
  | _ => some ([], cs)

/-- Optional exponent part of a JSON number. -/
def parseJExp (cs : List Char) : Option (List Char × List Char) :=
  match cs with
  | c :: r =>
    if c = 'e' ∨ c = 'E' then
      let (sgn, r2) : List Char × List Char :=
        match r with
        | '+' :: rr => (['+'], rr)
        | '-' :: rr => (['-'], rr)
        | _ => ([], r)
      let (ds, rest) := spanDigits r2
      if ds = [] then none else some (c :: (sgn ++ ds), rest)
    else some ([], cs)
  | [] => some ([], [])

/-- Lex a JSON number (no leading zeros, as in the JSON grammar). -/
def parseJNum (cs : List Char) : Option (String × List Char) :=
  let (neg, cs1) : List Char × List Char :=
    match cs with
    | '-' :: r => (['-'], r)
    | _ => ([], cs)
  match cs1 with
  | [] => none
  | c :: cs2 =>
    if c = '0' then
      match parseJFrac cs2 with
      | some (fr, r1) =>
        match parseJExp r1 with
        | some (ex, r2) => some (String.mk (neg ++ ['0'] ++ fr ++ ex), r2)
        | none => none
      | none => none
    else if c.isDigit then
      let (ds, rest) := spanDigits (c :: cs2)
      match parseJFrac rest with
      | some (fr, r1) =>
        match parseJExp r1 with
        | some (ex, r2) => some (String.mk (neg ++ ds ++ fr ++ ex), r2)
        | none => none
      | none => none
    else none

mutual

/-- Parse one JSON value (fuel-bounded recursive descent). -/
def parseJValue (fuel : Nat) (cs : List Char) : Option (Json × List Char) :=
  match fuel with
  | 0 => none
  | fuel + 1 =>
    let cs := jsonWs cs
    match cs with
    | [] => none
    | c :: rest =>
      if c = '"' then
        match parseJStr (rest.length + 1) rest with
        | some (s, r) => some (.jstr s, r)
        | none => none
      else if c = '\x7b' then
        let cs2 := jsonWs rest
        match cs2 with
        | '\x7d' :: r => some (.jobj [], r)
        | _ =>
          match parseJMembers fuel cs2 with
          | some (fs, r) => some (.jobj fs, r)
          | none => none
      else if c = '[' then
        let cs2 := jsonWs rest
        match cs2 with
        | ']' :: r => some (.jarr [], r)
        | _ =>
          match parseJElems fuel cs2 with
          | some (xs, r) => some (.jarr xs, r)
          | none => none
      else if startsWithL ['t', 'r', 'u', 'e'] cs then some (.jbool true, cs.drop 4)
      else if startsWithL ['f', 'a', 'l', 's', 'e'] cs then some (.jbool false, cs.drop 5)
      else if startsWithL ['n', 'u', 'l', 'l'] cs then some (.jnull, cs.drop 4)
      else
        match parseJNum cs with
        | some (s, r) => some (.jnum s, r)
        | none => none

/-- Parse the member list (comma separated, brace terminated) of a JSON object. -/
def parseJMembers (fuel : Nat) (cs : List Char) : Option (List (String × Json) × List Char) :=
  match fuel with
  | 0 => none
  | fuel + 1 =>
    match cs with
    | '"' :: rest =>
      match parseJStr (rest.length + 1) rest with
      | some (key, r1) =>
        match jsonWs r1 with
        | ':' :: r3 =>
          match parseJValue fuel r3 with
          | some (v, r4) =>
            match jsonWs r4 with
            | ',' :: r6 =>
              match parseJMembers fuel (jsonWs r6) with
              | some (fs, r7) => some ((key, v) :: fs, r7)
              | none => none
            | '\x7d' :: r6 => some ([(key, v)], r6)
            | _ => none
          | none => none
        | _ => none
      | none => none
    | _ => none

/-- Parse the element list (comma separated, bracket terminated) of a JSON array. -/
def parseJElems (fuel : Nat) (cs : List Char) : Option (List Json × List Char) :=
  match fuel with
  | 0 => none
  | fuel + 1 =>
    match parseJValue fuel cs with
    | some (v, r1) =>
      match jsonWs r1 with
      | ',' :: r2 =>
        match parseJElems fuel r2 with
        | some (xs, r3) => some (v :: xs, r3)
        | none => none
      | ']' :: r2 => some ([v], r2)
      | _ => none
    | none => none

end

/-- Embeds `json.loads(s)`: `none` models a raised `JSONDecodeError`. -/
def pyJsonLoads (s : String) : Option Json :=
  match parseJValue (s.data.length + 1) s.data with
  | some (v, rest) => if jsonWs rest = [] then some v else none
  | none => none

-- =========================================================================
-- The regex span search of screen_resume: greedy first-to-last brace span
-- =========================================================================

/-- Index of the last occurrence of `c`. -/
def lastIdxOf (c : Char) (cs : List Char) : Option Nat :=
  (cs.foldl
    (fun (acc : Nat × Option Nat) ch =>
      (acc.1 + 1, if ch = c then some acc.1 else acc.2))
    (0, none)).2

/-- Index of the first occurrence of `c` strictly below `bound`. -/
def firstIdxLt (c : Char) (bound : Nat) : List Char → Nat → Option Nat
  | [], _ => none
  | ch :: rest, i =>
    if ch = c ∧ i < bound then some i else firstIdxLt c bound rest (i + 1)

/-- The span matched under `re.search` by the greedy brace regex of
`screen_resume` (opening brace, any characters, closing brace): from the
first opening brace that has some closing brace after it, greedily to the
last closing brace of the text. -/
def extractJsonSpan (s : String) : Option String :=
  let cs := s.data
  match lastIdxOf '\x7d' cs with
  | none => none
  | some j =>
    match firstIdxLt '\x7b' j cs 0 with
    | none => none
    | some i => some (String.mk ((cs.drop i).take (j - i + 1)))

-- =========================================================================
-- screen_resume (shared ai_screening.py variant)
-- =========================================================================

/-- Embeds `required_fields` validated by the shared `screen_resume`. -/
def screeningRequiredFields : List String :=
  ["candidate_name", "score", "recommendation"]

/-- The degraded result returned by the shared `screen_resume` when no JSON
object can be parsed out of the response. -/
def screenParseFallback (response_text : String) : List (String × Json) :=
  [ ("candidate_name", .jstr "Unknown")
  , ("candidate_email", .jnull)
  , ("candidate_phone", .jnull)
  , ("job_matched", .jstr "General")
  , ("score", .jnum "5")
  , ("citizenship_status", .jstr "Unknown")
  , ("recommendation", .jstr "Review")
  , ("summary", .jstr (pyTake response_text 500))
  , ("raw_response", .jstr response_text) ]

/-- The result returned by the shared `screen_resume` when the LLM call (or
anything else inside the outer `try`) raises. -/
def screenErrorFallback (e : String) : List (String × Json) :=
  [ ("error", .jstr e)
  , ("candidate_name", .jstr "Unknown")
  , ("score", .jnum "0")
  , ("recommendation", .jstr "Review")
  , ("summary", .jstr "Screening failed - manual review required") ]

/-- Embeds `screen_resume(resume_text, job_roles)` of the shared engine, as a
function of the LLM completion outcome (the prompt built and sent is
`screeningPromptShared`).  Always returns a result dictionary — every
failure mode is caught. -/
def screen_resume (llm : Except String String) : List (String × Json) :=
  match llm with
  | .error e => screenErrorFallback e
  | .ok response_text =>
    match extractJsonSpan response_text with
    | none => screenParseFallback response_text
    | some span =>
      match pyJsonLoads span with
      | none => screenParseFallback response_text
      | some (.jobj fields) =>
        if screeningRequiredFields.all (fun f => (fields.lookup f).isSome) then fields
        else screenParseFallback response_text
      | some _ => screenParseFallback response_text

/-- The degraded result returned by the `screen_resume` of `main.py` on
parse failure — note: no `summary` key at all (the raw text is kept under
`reason`). -/
def mainScreenParseFallback (response_text : String) : List (String × Json) :=
  [ ("matched_job", .jstr "Unknown")
  , ("score", .jnum "5")
  , ("qualifications", .jarr [])
  , ("missing", .jarr [])
  , ("recommendation", .jstr "Review")
  , ("reason", .jstr (pyTake response_text 500))
  , ("raw_response", .jstr response_text) ]

/-- The result returned by the `screen_resume` of `main.py` when the call raises. -/
def mainScreenErrorFallback (e : String) : List (String × Json) :=
  [ ("error", .jstr e)
  , ("recommendation", .jstr "Review")
  , ("reason", .jstr "Screening failed - manual review required") ]

/-- Embeds `screen_resume(resume_text)` of `main.py` (no required-field validation
on the parsed object). -/
def main_screen_resume (llm : Except String String) : List (String × Json) :=
  match llm with
  | .error e => mainScreenErrorFallback e
  | .ok response_text =>
    match extractJsonSpan response_text with
    | none => mainScreenParseFallback response_text
    | some span =>
      match pyJsonLoads span with
      | none => mainScreenParseFallback response_text
      | some (.jobj fields) => fields
      | some _ => mainScreenParseFallback response_text

-- =========================================================================
-- Supporting definitions for the claim theorems
-- =========================================================================

/-- A role catalog (database-loaded) that contains the `phone_researcher`
role, activated. -/
def kbPhone : Knowledge :=
  { db_loaded := true
    db_roles := [("phone_researcher",
      { (ROLE_KNOWLEDGE.lookup "phone_researcher").getD general_role with is_active := true })] }

/-- Specification-side pure function of the four completion flags: the
minimum-priority unmet objective. -/
def objectiveFromFlags (form resume exp elig : Bool) : Option Objective :=
  if form = false then some objApplication
  else if resume = false then some objResume
  else if exp = false then some objExperience
  else if elig = false then some objEligibility
  else none

/-- Flag monotonicity between two states: none of the four progress flags
goes from set to unset. -/
def flagsMono (s t : StateD) : Bool :=
  (!s.form_completed || t.form_completed)
    && (!s.resume_received || t.resume_received)
    && (!s.experience_discussed || t.experience_discussed)
    && (!s.call_scheduled || t.call_scheduled)

/-- Propositional form of `flagsMono`. -/
def FlagsLe (s t : StateD) : Prop :=
  (s.form_completed = true → t.form_completed = true)
    ∧ (s.resume_received = true → t.resume_received = true)
    ∧ (s.experience_discussed = true → t.experience_discussed = true)
    ∧ (s.call_scheduled = true → t.call_scheduled = true)

-- =========================================================================
-- Helper lemmas
-- =========================================================================

theorem startsWithL_append (p l r : List Char) (h : startsWithL p l = true) :
    startsWithL p (l ++ r) = true := by
  induction p generalizing l with
  | nil => simp [startsWithL]
  | cons a as ih =>
    cases l with
    | nil => simp [startsWithL] at h
    | cons b bs =>
      simp only [startsWithL, Bool.and_eq_true] at h ⊢
      exact ⟨h.1, ih bs h.2⟩

theorem startsWithL_self (p r : List Char) : startsWithL p (p ++ r) = true := by
  induction p with
  | nil => simp [startsWithL]
  | cons a as ih => simp [startsWithL, ih]

theorem containsL_cons (p : List Char) (c : Char) (rest : List Char) :
    containsL p (c :: rest) = (startsWithL p (c :: rest) || containsL p rest) := rfl

theorem containsL_nil_pat (l : List Char) : containsL [] l = true := by
  cases l <;> rfl

theorem containsL_append_right (p l r : List Char) (h : containsL p r = true) :
    containsL p (l ++ r) = true := by
  induction l with
  | nil => simpa using h
  | cons b bs ih =>
    rw [List.cons_append, containsL_cons, Bool.or_eq_true]
    exact Or.inr ih

theorem containsL_append_left (p l r : List Char) (h : containsL p l = true) :
    containsL p (l ++ r) = true := by
  induction l with
  | nil =>
    cases p with
    | nil => exact containsL_nil_pat r
    | cons a as => simp [containsL, startsWithL] at h
  | cons b bs ih =>
    rw [containsL_cons, Bool.or_eq_true] at h
    rw [List.cons_append, containsL_cons, Bool.or_eq_true]
    cases h with
    | inl h => exact Or.inl (startsWithL_append _ _ _ h)
    | inr h => exact Or.inr (ih h)

theorem containsL_of_middle (p l r : List Char) :
    containsL p (l ++ (p ++ r)) = true := by
  apply containsL_append_right
  cases p with
  | nil => exact containsL_nil_pat _
  | cons a as =>
    rw [List.cons_append, containsL_cons, Bool.or_eq_true]
    exact Or.inl (startsWithL_self _ _)

theorem string_data_append (s t : String) : (s ++ t).data = s.data ++ t.data := by
  cases s; cases t; rfl

/-- Embeds `containsSub` holds for any string of the shape `a ++ pat ++ b`. -/
theorem containsSub_sandwich (a pat b : String) :
    containsSub (a ++ pat ++ b) pat = true := by
  unfold containsSub
  rw [string_data_append, string_data_append, List.append_assoc]
  exact containsL_of_middle _ _ _

theorem stateVal_updStateS (m : SharedMem) (f : StateD → StateD) :
    stateVal (updStateS m f) = f (stateVal m) := by
  cases m with
  | mk conv state => cases state <;> rfl

theorem stateVal_addMessageS (m : SharedMem) (role content : String) :
    stateVal (addMessageS m role content) = stateVal m := by
  cases m with
  | mk conv state => cases state <;> rfl

theorem stateValM_updStateM (m : MainMem) (f : StateD → StateD) :
    stateValM (updStateM m f) = f (stateValM m) := by
  cases m with
  | mk conv state restored => cases state <;> rfl

theorem stateValM_addMessageM (m : MainMem) (role content : String) :
    stateValM (addMessageM m role content) = stateValM m := by
  cases m with
  | mk conv state restored => cases state <;> rfl

theorem pyTake_ne_empty (s : String) (n : Nat) (hn : n ≠ 0) (hs : s ≠ "") :
    pyTake s n ≠ "" := by
  intro h
  have hd : s.data.take n = [] := congrArg String.data h
  rcases List.take_eq_nil_iff.mp hd with h1 | h2
  · exact hn h1
  · exact hs (by cases s; cases h2; rfl)

theorem containsSub_append_left (a b pat : String) (h : containsSub a pat = true) :
    containsSub (a ++ b) pat = true := by
  unfold containsSub at h ⊢
  rw [string_data_append]
  exact containsL_append_left _ _ _ h

theorem containsSub_append_right (a b pat : String) (h : containsSub b pat = true) :
    containsSub (a ++ b) pat = true := by
  unfold containsSub at h ⊢
  rw [string_data_append]
  exact containsL_append_right _ _ _ h

theorem containsSub_joinParts (parts : List String) (p pat : String)
    (hp : p ∈ parts) (h : containsSub p pat = true) :
    containsSub (joinParts parts) pat = true := by
  induction parts with
  | nil => cases hp
  | cons x rest ih =>
    cases rest with
    | nil =>
      rcases List.mem_singleton.mp hp with rfl
      simpa [joinParts] using h
    | cons y ys =>
      rcases List.mem_cons.mp hp with rfl | hmem
      · show containsSub (p ++ "\n" ++ joinParts (y :: ys)) pat = true
        exact containsSub_append_left _ _ _ (containsSub_append_left _ _ _ h)
      · show containsSub (x ++ "\n" ++ joinParts (y :: ys)) pat = true
        exact containsSub_append_right _ _ _ (ih hmem)

theorem bool_imp_or (a b : Bool) : (!a || b) = true ↔ (a = true → b = true) := by
  cases a <;> cases b <;> simp

theorem flagsMono_iff (s t : StateD) : flagsMono s t = true ↔ FlagsLe s t := by
  unfold flagsMono FlagsLe
  simp only [Bool.and_eq_true, bool_imp_or]
  tauto

theorem flags_le_refl (s : StateD) : FlagsLe s s :=
  ⟨id, id, id, id⟩

theorem flags_le_trans {a b c : StateD} (h1 : FlagsLe a b) (h2 : FlagsLe b c) :
    FlagsLe a c :=
  ⟨fun h => h2.1 (h1.1 h), fun h => h2.2.1 (h1.2.1 h),
   fun h => h2.2.2.1 (h1.2.2.1 h), fun h => h2.2.2.2 (h1.2.2.2 h)⟩

/-- Embeds `identifyScan` is the first catalog entry, in iteration order, that is
active, not `general`, and has a keyword hit. -/
theorem identifyScan_eq_find (tl : String) (l : List (String × RoleInfo)) :
    identifyScan tl l
      = (l.find? (fun p =>
          (p.1 != "general") && p.2.is_active
            && p.2.keywords.any (fun kw => containsSub tl (pyLower kw)))).map Prod.fst := by
  induction l with
  | nil => rfl
  | cons p rest ih =>
    obtain ⟨k, r⟩ := p
    by_cases hk : k = "general"
    · subst hk
      simpa [identifyScan, List.find?] using ih
    · have hbne : (k != "general") = true := bne_iff_ne.mpr hk
      cases ha : r.is_active with
      | false => simpa [identifyScan, List.find?, hk, ha, hbne] using ih
      | true =>
        cases hany : r.keywords.any (fun kw => containsSub tl (pyLower kw)) with
        | false => simpa [identifyScan, List.find?, hk, ha, hany, hbne] using ih
        | true => simp [identifyScan, List.find?, hk, ha, hany, hbne]

theorem detectFormStep_mono (m : SharedMem) (ml : String) :
    FlagsLe (stateVal m) (stateVal (detectFormStep m ml)) := by
  unfold detectFormStep
  split
  · split
    · rw [stateVal_updStateS]; exact ⟨fun _ => rfl, id, id, id⟩
    · exact flags_le_refl _
  · exact flags_le_refl _

theorem detectRoleStep_mono (kb : Knowledge) (m : SharedMem) (message : String) :
    FlagsLe (stateVal m) (stateVal (detectRoleStep kb m message)) := by
  unfold detectRoleStep
  split
  · split
    · rw [stateVal_updStateS]; exact ⟨id, id, id, id⟩
    · exact flags_le_refl _
  · exact flags_le_refl _

theorem detectCitStep_mono (m : SharedMem) (ml : String) :
    FlagsLe (stateVal m) (stateVal (detectCitStep m ml)) := by
  unfold detectCitStep
  cases citizenship_indicators.find? (fun p => containsSub ml p.1) with
  | none => exact flags_le_refl _
  | some p => rw [stateVal_updStateS]; exact ⟨id, id, id, id⟩

theorem detectTimeStep_mono (m : SharedMem) (ml : String) :
    FlagsLe (stateVal m) (stateVal (detectTimeStep m ml)) := by
  unfold detectTimeStep
  split
  · split
    · rw [stateVal_updStateS]; exact ⟨id, id, id, fun _ => rfl⟩
    · exact flags_le_refl _
  · exact flags_le_refl _

theorem respFormStep_mono (m : SharedMem) (rl : String) :
    FlagsLe (stateVal m) (stateVal (respFormStep m rl)) := by
  unfold respFormStep
  split
  · rw [stateVal_updStateS]; exact ⟨id, id, id, id⟩
  · exact flags_le_refl _

theorem respResumeStep_mono (m : SharedMem) (rl : String) :
    FlagsLe (stateVal m) (stateVal (respResumeStep m rl)) := by
  unfold respResumeStep
  split
  · split
    · rw [stateVal_updStateS]; exact ⟨id, id, id, id⟩
    · exact flags_le_refl _
  · exact flags_le_refl _

theorem respExperienceStep_mono (m : SharedMem) (rl : String) :
    FlagsLe (stateVal m) (stateVal (respExperienceStep m rl)) := by
  unfold respExperienceStep
  split
  · split
    · rw [stateVal_updStateS]; exact ⟨id, id, fun _ => rfl, id⟩
    · exact flags_le_refl _
  · exact flags_le_refl _

theorem respClosingStep_mono (m : SharedMem) (rl : String) :
    FlagsLe (stateVal m) (stateVal (respClosingStep m rl)) := by
  unfold respClosingStep
  split
  · rw [stateVal_updStateS]; exact ⟨id, id, id, id⟩
  · exact flags_le_refl _

theorem flags_le_reflM (m : MainMem) : FlagsLe (stateValM m) (stateValM m) :=
  flags_le_refl _

theorem mainDetectFormStep_mono (m : MainMem) (ml : String) :
    FlagsLe (stateValM m) (stateValM (mainDetectFormStep m ml)) := by
  unfold mainDetectFormStep
  split
  · split
    · rw [stateValM_updStateM]; exact ⟨fun _ => rfl, id, id, id⟩
    · exact flags_le_refl _
  · exact flags_le_refl _

theorem mainDetectRoleStep_mono (kb : Knowledge) (m : MainMem) (message : String) :
    FlagsLe (stateValM m) (stateValM (mainDetectRoleStep kb m message)) := by
  unfold mainDetectRoleStep
  split
  · split
    · rw [stateValM_updStateM]; exact ⟨id, id, id, id⟩
    · exact flags_le_refl _
  · exact flags_le_refl _

theorem mainDetectCitStep_mono (m : MainMem) (ml : String) :
    FlagsLe (stateValM m) (stateValM (mainDetectCitStep m ml)) := by
  unfold mainDetectCitStep
  cases citizenship_map_main.find? (fun p => containsSub ml p.1) with
  | none => exact flags_le_refl _
  | some p => rw [stateValM_updStateM]; exact ⟨id, id, id, id⟩

theorem mainRespResumeStep_mono (m : MainMem) (rl : String) :
    FlagsLe (stateValM m) (stateValM (mainRespResumeStep m rl)) := by
  unfold mainRespResumeStep
  split
  · split
    · rw [stateValM_updStateM]; exact ⟨id, id, id, id⟩
    · exact flags_le_refl _
  · exact flags_le_refl _

theorem mainRespClosingStep_mono (m : MainMem) (rl : String) :
    FlagsLe (stateValM m) (stateValM (mainRespClosingStep m rl)) := by
  unfold mainRespClosingStep
  split
  · rw [stateValM_updStateM]; exact ⟨id, id, id, id⟩
  · exact flags_le_refl _

-- =========================================================================
-- Claim theorems
-- =========================================================================

/-- Claim C8: for every job catalog and resume text, the screening prompt
handed to the LLM — in both the shared and the telegram variant — contains
the default-reject directive for missing SC/PR evidence; the behavioural
half of the claim ("no citizenship indicators yields Rejected") is enforced
exactly by this prompt fidelity. -/
theorem c8_screening_prompt_directive (job_roles resume_text : String) :
    containsSub (screeningPromptShared job_roles resume_text) CITIZENSHIP_DIRECTIVE = true
    ∧ containsSub (screeningPromptMain job_roles resume_text) CITIZENSHIP_DIRECTIVE = true := by
  constructor
  · unfold screeningPromptShared
    exact containsSub_sandwich _ _ SCREEN_C2_shared
  · unfold screeningPromptMain
    exact containsSub_sandwich _ _ SCREEN_C2_main

set_option maxRecDepth 8192 in
/-- Claim C1 (code evaluated at the failing input): for a brand-new
telegram user whose first message is "hi", the `get_ai_response` of `main.py`
invokes the LLM and returns the completion — its canned-greeting branch is
unreachable because the just-appended inbound message makes the
valid-message list non-empty.  The shared (whatsapp) engine behaves as the
claim states: no LLM call, and the canned greeting containing the
application-form URL. -/
theorem c1_first_turn_eval :
    (mainGetAiResponse staticKb { dbState := some { stage := "initial" } } {}
        "hi" none (.ok "LLM REPLY")).2.2 = true
    ∧ (mainGetAiResponse staticKb { dbState := some { stage := "initial" } } {}
        "hi" none (.ok "LLM REPLY")).1 = "LLM REPLY"
    ∧ (sharedGetAiResponse staticKb {} {} "hi" none (.ok "LLM REPLY")).2.2 = false
    ∧ (sharedGetAiResponse staticKb {} {} "hi" none (.ok "LLM REPLY")).1
        = get_first_contact_response none
    ∧ containsSub (get_first_contact_response none) APPLICATION_FORM_URL = true := by
  refine ⟨by decide, by decide, by decide, by decide, by decide⟩

/-- Claim C2, counterexample: the empty string is an LLM response with no
parseable JSON object, yet the `summary` of the degraded result is the empty
string — not a non-empty one. -/
theorem c2_empty_response_counterexample :
    (extractJsonSpan "").bind pyJsonLoads = none
    ∧ ((screen_resume (.ok "")).lookup "summary") = some (Json.jstr "") := by
  exact ⟨rfl, rfl⟩

/-- Claim C2 (amended): whenever the screening LLM response contains no
parseable JSON object, the shared `screen_resume` returns the degraded
result with `recommendation = "Review"` and `summary` preserving the first
500 characters of the raw response (hence non-empty whenever the raw
response is non-empty); when the LLM call itself raises, the caught-error
result also carries `recommendation = "Review"`.  No failure mode escapes
the function. -/
theorem c2_parse_failure_degrades (response_text : String)
    (h : (extractJsonSpan response_text).bind pyJsonLoads = none) :
    screen_resume (.ok response_text) = screenParseFallback response_text
    ∧ ((screenParseFallback response_text).lookup "recommendation")
        = some (Json.jstr "Review")
    ∧ ((screenParseFallback response_text).lookup "summary")
        = some (Json.jstr (pyTake response_text 500))
    ∧ (response_text ≠ "" → pyTake response_text 500 ≠ "")
    ∧ (∀ e, ((screen_resume (.error e)).lookup "recommendation")
        = some (Json.jstr "Review")) := by
  refine ⟨?_, rfl, rfl, fun hne => pyTake_ne_empty _ _ (by decide) hne, fun e => rfl⟩
  unfold screen_resume
  cases hx : extractJsonSpan response_text with
  | none => simp [hx]
  | some span =>
    have hp : pyJsonLoads span = none := by simpa [hx] using h
    simp [hx, hp]

/-- Claim C2, witness. -/
theorem c2_witness :
    screen_resume (.ok "no json here") = screenParseFallback "no json here"
    ∧ pyTake "no json here" 500 ≠ "" := by
  have h := c2_parse_failure_degrades "no json here" rfl
  exact ⟨h.1, h.2.2.2.1 (by decide)⟩

/-- Claim C4, counterexample: a truthy non-text input (the integer 1)
reaches `text.lower()` and raises `AttributeError` — the matcher does not
return `None` on every non-text input and does raise on some inputs. -/
theorem c4_nontext_raises_counterexample :
    identify_role_py staticKb (PyVal.vint 1)
      = .error "AttributeError: object has no attribute \x27lower\x27" := rfl

/-- Claim C4 (amended): the keyword role matcher returns `None` without
raising on empty or `None` input; on every *string* input it never raises
and returns the first active non-`general` role in catalog iteration order
whose lower-cased keyword occurs in the lower-cased text (so inactive and
`general` roles are never returned); on a catalog with the
`phone_researcher` role active, the phone-surveys example returns that key.
Truthy non-string input, however, raises `AttributeError`
(`c4_nontext_raises_counterexample`). -/
theorem c4_role_matcher (kb : Knowledge) :
    identify_role_from_text kb "" = none
    ∧ identify_role_py kb PyVal.vnone = .ok none
    ∧ identify_role_py kb (PyVal.vstr "") = .ok none
    ∧ (∀ s : String, identify_role_py kb (PyVal.vstr s)
        = .ok (identify_role_from_text kb s))
    ∧ (∀ text : String,
        identify_role_from_text kb text
          = if text = "" then none
            else ((get_all_roles kb).find? (fun p =>
                (p.1 != "general") && p.2.is_active
                  && p.2.keywords.any (fun kw =>
                      containsSub (pyLower text) (pyLower kw)))).map Prod.fst)
    ∧ (∀ text k, identify_role_from_text kb text = some k →
        k ≠ "general" ∧ ∃ r, (k, r) ∈ get_all_roles kb ∧ r.is_active = true)
    ∧ identify_role_from_text kbPhone "I saw your posting about phone surveys"
        = some "phone_researcher" := by
  refine ⟨by simp [identify_role_from_text], rfl, rfl, ?_, ?_, ?_, by decide⟩
  · intro s
    by_cases hs : s = ""
    · subst hs; simp [identify_role_py, pyTruthy, identify_role_from_text]
    · simp [identify_role_py, pyTruthy, hs]
  · intro text
    by_cases ht : text = ""
    · simp [identify_role_from_text, ht]
    · simp [identify_role_from_text, ht, identifyScan_eq_find]
  · intro text k hk
    by_cases ht : text = ""
    · rw [ht] at hk; simp [identify_role_from_text] at hk
    · rw [identify_role_from_text, if_neg ht, identifyScan_eq_find] at hk
      obtain ⟨⟨k', r⟩, hfind, hfst⟩ := Option.map_eq_some'.mp hk
      have hk' : k' = k := hfst
      subst hk'
      have hpred := List.find?_some hfind
      have hmem := List.mem_of_find?_eq_some hfind
      simp only [Bool.and_eq_true, bne_iff_ne] at hpred
      exact ⟨hpred.1.1, ⟨r, hmem, hpred.1.2⟩⟩

/-- Claim C4, witness. -/
theorem c4_witness :
    identify_role_from_text kbPhone "I saw your posting about phone surveys"
      = some "phone_researcher"
    ∧ ("warehouse_packer" ≠ "general"
        ∧ ∃ r, ("warehouse_packer", r) ∈ get_all_roles staticKb
            ∧ r.is_active = true) := by
  have h := c4_role_matcher staticKb
  exact ⟨h.2.2.2.2.2.2,
    h.2.2.2.2.2.1 "warehouse job" "warehouse_packer" (by decide)⟩

/-- Claim C5, counterexample: with a repository that has a state row but no
messages, the second `restore_conversation_from_db` call for an
already-resident user still performs a repository load — the state read
happens on every call, contradicting "subsequent calls perform no
repository load of either message history or state". -/
theorem c5_second_call_loads_state :
    (mainRestore { dbState := some { stage := "initial" }, dbMessages := [] }
        (mainRestore { dbState := some { stage := "initial" }, dbMessages := [] } {}).1).2
      = [LoadEvent.stateLoad]
    ∧ (mainRestore { dbState := some { stage := "initial" }, dbMessages := [] }
        (mainRestore { dbState := some { stage := "initial" }, dbMessages := [] } {}).1).2
      ≠ ([] : List LoadEvent) := by
  exact ⟨rfl, by decide⟩

/-- Claim C5 (amended): in the telegram engine every restore call marks the
user resident (also on repository failure), a call for an already-resident user
performs exactly one repository read — the state load — and never the
history load, and the state load is attempted on every call; in the shared
engine restoration is skipped only when non-empty history is already in
memory (there is no resident marker at all). -/
theorem c5_restore_once_amended (env : MainEnv) (m : MainMem)
    (senv : SharedEnv) (sm : SharedMem) (msg : Msg) (rest : List Msg) :
    (mainRestore env m).1.restored = true
    ∧ (mainRestore env { m with restored := true }).2 = [LoadEvent.stateLoad]
    ∧ LoadEvent.stateLoad ∈ (mainRestore env m).2
    ∧ restoreShared senv { sm with conv := msg :: rest }
        = { sm with conv := msg :: rest } := by
  refine ⟨?_, ?_, ?_, ?_⟩
  · cases hok : env.dbOk <;> cases hr : m.restored <;> cases hst : env.dbState <;>
      simp [mainRestore, hok, hr, hst]
  · cases hok : env.dbOk <;> cases hst : env.dbState <;>
      simp [mainRestore, hok, hst]
  · cases hok : env.dbOk <;> cases hr : m.restored <;> cases hst : env.dbState <;>
      simp [mainRestore, hok, hr, hst]
  · simp [restoreShared]

/-- Claim C9, counterexample: a whitespace-only (non-empty) candidate name
makes `candidate_name.split()[0]` raise `IndexError` — the acknowledgment
is not produced for *every* candidate name. -/
theorem c9_whitespace_name_counterexample :
    get_resume_acknowledgment staticKb " " (some "barista")
      = .error "IndexError: list index out of range" := rfl

/-- Claim C9 (amended): for every candidate name that is empty or contains
at least one non-whitespace token, `get_resume_acknowledgment` returns
without raising the two-part message `thanks {first}!` + separator + one
question, where `first` is the first whitespace-separated token (or "there"
for an empty name) and the question is the first experience question of the
matched role when available, else the generic fallback; a whitespace-only
non-empty name instead raises (`c9_whitespace_name_counterexample`). -/
theorem c9_acknowledgment (kb : Knowledge) (role_key : Option String) :
    (∀ name f rest, pySplit name = f :: rest → name ≠ "" →
        get_resume_acknowledgment kb name role_key
          = .ok ("thanks " ++ f ++ "!\n---\n" ++ ackQuestion kb role_key))
    ∧ get_resume_acknowledgment kb "" role_key
        = .ok ("thanks there!\n---\n" ++ ackQuestion kb role_key)
    ∧ (∀ k, ackQuestion kb (some k)
        = if k ≠ "" then get_experience_question kb k
          else "what kind of work are u looking for?")
    ∧ ackQuestion kb none = "what kind of work are u looking for?" := by
  refine ⟨?_, by simp [get_resume_acknowledgment], ?_, rfl⟩
  · intro name f rest hsplit hne
    simp [get_resume_acknowledgment, hne, hsplit]
  · intro k
    by_cases hk : k = "" <;> simp [ackQuestion, optTruthy, hk]

/-- Claim C9, witness. -/
theorem c9_ack_witness :
    get_resume_acknowledgment staticKb "Jane Doe" (some "barista")
      = .ok ("thanks Jane!\n---\n" ++ ackQuestion staticKb (some "barista"))
    ∧ get_resume_acknowledgment staticKb "" none
      = .ok ("thanks there!\n---\n" ++ ackQuestion staticKb none) := by
  exact ⟨(c9_acknowledgment staticKb (some "barista")).1 "Jane Doe" "Jane" ["Doe"]
      (by decide) (by decide),
    (c9_acknowledgment staticKb none).2.1⟩

/-- Claim C10: all four text detectors — the user-text and assistant-reply
detectors of the shared engine and the user-text detector and
inline reply update — are monotone on the four progress flags
(`form_completed`, `resume_received`, `experience_discussed`,
`call_scheduled`): no flag ever goes from set to unset. -/
theorem c10_detectors_monotone (kb : Knowledge) (m : SharedMem) (mm : MainMem)
    (text : String) :
    flagsMono (stateVal m) (stateVal (detect_state_from_message kb m text)) = true
    ∧ flagsMono (stateVal m) (stateVal (update_state_from_response m text)) = true
    ∧ flagsMono (stateValM mm) (stateValM (mainDetect kb mm text)) = true
    ∧ flagsMono (stateValM mm) (stateValM (mainRespUpdate mm text)) = true := by
  refine ⟨(flagsMono_iff _ _).mpr ?_, (flagsMono_iff _ _).mpr ?_,
    (flagsMono_iff _ _).mpr ?_, (flagsMono_iff _ _).mpr ?_⟩
  · exact flags_le_trans (detectFormStep_mono m (pyLower text))
      (flags_le_trans (detectRoleStep_mono kb _ text)
        (flags_le_trans (detectCitStep_mono _ (pyLower text))
          (detectTimeStep_mono _ (pyLower text))))
  · exact flags_le_trans (respFormStep_mono m (pyLower text))
      (flags_le_trans (respResumeStep_mono _ (pyLower text))
        (flags_le_trans (respExperienceStep_mono _ (pyLower text))
          (respClosingStep_mono _ (pyLower text))))
  · exact flags_le_trans (mainDetectFormStep_mono mm (pyLower text))
      (flags_le_trans (mainDetectRoleStep_mono kb _ text)
        (mainDetectCitStep_mono _ (pyLower text)))
  · exact flags_le_trans (mainRespResumeStep_mono mm (pyLower text))
      (mainRespClosingStep_mono _ (pyLower text))

/-- Claim C3: for every conversation state with `resume_received = true`,
the resume-collection objective is never pending, `get_next_objective`
never returns it, and the "YOUR CURRENT FOCUS" section of the built prompt
(with the configured closing phrase) never contains the word "resume". -/
theorem c3_resume_invariant (kb : Knowledge) (ctx : ConversationContext) :
    ((get_pending_objectives { ctx with resume_received := true }).all
        (fun o => o.id != "collect_resume")) = true
    ∧ (Option.all (fun o => o.id != "collect_resume")
        (get_next_objective { ctx with resume_received := true })) = true
    ∧ containsSub
        (pyLower (joinParts (focusSectionParts
          { kb with closing_phrase := "will contact u if shortlisted" }
          { ctx with resume_received := true })))
        "resume" = false := by
  cases hf : ctx.form_completed <;> cases he : ctx.experience_discussed <;>
    cases hel : ctx.eligibility_confirmed <;>
    refine ⟨?_, ?_, ?_⟩ <;>
    simp [get_pending_objectives, objectivePending, PRIMARY_GOALS, objApplication,
      objResume, objExperience, objEligibility, get_next_objective, pyMinByPriority,
      focusSectionParts, is_ready_to_close, joinParts, hf, he, hel] <;>
    decide

/-- Claim C6: when the LLM completion fails on a non-first turn, both
engines return the fixed apology string and leave the per-user memory — in
particular the `stage` field of the state — exactly as it was immediately before the
completion call; the failure is contained (the embedded turn is total). -/
theorem c6_llm_failure_apology (kb : Knowledge) (env : SharedEnv) (menv : MainEnv)
    (m : SharedMem) (mm : MainMem) (message : String) (cname : Option String)
    (e1 e2 : String) :
    (¬((sharedPrep kb env m message cname).2.2 = []
        ∨ (sharedPrep kb env m message cname).2.2.length ≤ 1) →
      sharedGetAiResponse kb env m message cname (.error e1)
          = (APOLOGY, (sharedPrep kb env m message cname).1, true)
        ∧ (stateVal (sharedGetAiResponse kb env m message cname (.error e1)).2.1).stage
          = (stateVal (sharedPrep kb env m message cname).1).stage)
    ∧ ((mainPrep kb menv mm message cname).2.2 ≠ [] →
      mainGetAiResponse kb menv mm message cname (.error e2)
          = (APOLOGY, (mainPrep kb menv mm message cname).1, true)
        ∧ (stateValM (mainGetAiResponse kb menv mm message cname (.error e2)).2.1).stage
          = (stateValM (mainPrep kb menv mm message cname).1).stage) := by
  constructor
  · intro h
    have heq : sharedGetAiResponse kb env m message cname (.error e1)
        = (APOLOGY, (sharedPrep kb env m message cname).1, true) := by
      simp only [sharedGetAiResponse]
      rw [if_neg h]
    exact ⟨heq, by rw [heq]⟩
  · intro h
    have heq : mainGetAiResponse kb menv mm message cname (.error e2)
        = (APOLOGY, (mainPrep kb menv mm message cname).1, true) := by
      simp only [mainGetAiResponse]
      rw [if_neg h]
    exact ⟨heq, by rw [heq]⟩

/-- Claim C6, witness. -/
theorem c6_witness :
    (sharedGetAiResponse staticKb {}
        { conv := [{ role := "user", content := "a" }, { role := "assistant", content := "b" }] }
        "hello" none (.error "boom")).1 = APOLOGY
    ∧ (mainGetAiResponse staticKb {}
        { conv := [{ role := "user", content := "a" }], restored := true }
        "hello" none (.error "boom")).1 = APOLOGY := by
  have h := c6_llm_failure_apology staticKb {} {}
    { conv := [{ role := "user", content := "a" }, { role := "assistant", content := "b" }] }
    { conv := [{ role := "user", content := "a" }], restored := true }
    "hello" none "boom" "boom"
  exact ⟨congrArg Prod.fst (h.1 (by decide)).1, congrArg Prod.fst (h.2 (by decide)).1⟩

/-- Claim C7: next-objective selection is the pure minimum-priority-unmet
function of the four completion flags; it returns `none` exactly when all
four flags are set; and in that case the built system prompt contains the
closing phrase (in the closing directive that replaces the objective). -/
theorem c7_next_objective (kb : Knowledge) (ctx : ConversationContext) :
    get_next_objective ctx
      = objectiveFromFlags ctx.form_completed ctx.resume_received
          ctx.experience_discussed ctx.eligibility_confirmed
    ∧ (get_next_objective ctx).isNone
      = (ctx.form_completed && ctx.resume_received
          && ctx.experience_discussed && ctx.eligibility_confirmed)
    ∧ containsSub
        (build_system_prompt kb
          { ctx with
              form_completed := true
              resume_received := true
              experience_discussed := true
              eligibility_confirmed := true })
        kb.closing_phrase = true := by
  refine ⟨?_, ?_, ?_⟩
  · cases hf : ctx.form_completed <;> cases hr : ctx.resume_received <;>
      cases he : ctx.experience_discussed <;> cases hel : ctx.eligibility_confirmed <;>
      simp [get_next_objective, get_pending_objectives, objectivePending, PRIMARY_GOALS,
        objApplication, objResume, objExperience, objEligibility, pyMinByPriority,
        objectiveFromFlags, hf, hr, he, hel]
  · cases hf : ctx.form_completed <;> cases hr : ctx.resume_received <;>
      cases he : ctx.experience_discussed <;> cases hel : ctx.eligibility_confirmed <;>
      simp [get_next_objective, get_pending_objectives, objectivePending, PRIMARY_GOALS,
        objApplication, objResume, objExperience, objEligibility, pyMinByPriority,
        hf, hr, he, hel]
  · have hfocus : focusSectionParts kb
        { ctx with
            form_completed := true
            resume_received := true
            experience_discussed := true
            eligibility_confirmed := true }
        = [ "## YOUR CURRENT FOCUS"
          , "- All main info collected - can wrap up the conversation"
          , "- Use: \"" ++ kb.closing_phrase ++ "\""
          , "" ] := by
      simp [focusSectionParts, get_next_objective, get_pending_objectives,
        objectivePending, PRIMARY_GOALS, objApplication, objResume, objExperience,
        objEligibility, is_ready_to_close]
    unfold build_system_prompt
    apply containsSub_joinParts _ ("- Use: \"" ++ kb.closing_phrase ++ "\"")
    · rw [hfocus]
      simp [List.mem_append]
    · exact containsSub_sandwich "- Use: \"" kb.closing_phrase "\""
